import Mathlib

/-!
Shallow embedding of the Ubon Computer Speccom V.3 configuration engine:
the compatibility checker, the attribute-filter deriver (Smart Sync), the
filter applier, the quote calculator and the selection (build) operations.
Numbers are modelled as rationals; the attribute bag is modelled as a record
of exactly the optional keys the engine reads (unknown keys are never read
by the engine, so they are observationally irrelevant). JavaScript
truthiness of the read values is made explicit where the source relies on
it (empty string and zero are falsy, any array is truthy, absent is falsy).
-/

namespace UbonSpec

/-- The eight base component slots, from BASE_CATEGORIES in the source. -/
inductive BaseCategory
  | CPU | Motherboard | GPU | RAM | Storage | PSU | Case | Cooler
deriving DecidableEq

/-- The add-on categories, from ADDON_CATEGORIES in the source. -/
inductive AddonCategory
  | Monitor | Software | SSD
deriving DecidableEq

/-- A category is either a base or an add-on category. -/
inductive Category
  | base (c : BaseCategory)
  | addon (a : AddonCategory)
deriving DecidableEq

/-- A Product record. The attributes field of the source is an open map;
the engine only ever reads the keys below, each with the expected scalar
or list type, so they are embedded as optional typed fields. -/
structure Product where
  id : String
  name : String := ""
  category : Category := Category.base BaseCategory.CPU
  price : ℚ := 0
  stock : ℚ := 0
  cost : Option ℚ := none
  socket : Option String := none
  tdp : Option ℚ := none
  ramType : Option String := none
  formFactor : Option String := none
  pcieSlots : Option ℚ := none
  storage : Option (List String) := none
  formFactorSupport : Option (List String) := none
  socketSupport : Option (List String) := none
  interface : Option String := none
  type : Option String := none
  wattage : Option ℚ := none
deriving DecidableEq

/-- One add-on line of the build: an entry id, the product and a quantity. -/
structure AddonEntry where
  id : String
  product : Product
  qty : ℚ
deriving DecidableEq

/-- BuildState: at most one product per base category, plus add-on lines. -/
structure BuildState where
  base : BaseCategory → Option Product
  addons : List AddonEntry

/-- The AttrFilters record (FilterSet): all fields optional. -/
@[ext]
structure AttrFilters where
  socket : Option String := none
  ramType : Option String := none
  formFactor : Option String := none
  storageInterface : Option String := none
  minPSUWatt : Option ℚ := none
  coolerSocket : Option String := none
deriving DecidableEq

/-- Severity level of a compatibility note. -/
inductive Level
  | ok | warn | error
deriving DecidableEq

/-- One compatibility note: a level and a display message. -/
structure Note where
  level : Level
  msg : String
deriving DecidableEq

/-- The compatibility report: overall level plus the ordered notes. -/
structure Report where
  level : Level
  notes : List Note
deriving DecidableEq

/-- JavaScript truthiness of an optional string: absent and empty are falsy. -/
def strTruthy : Option String → Bool
  | none => false
  | some s => s != ""

/-- JavaScript truthiness of an optional number: absent and zero are falsy. -/
def numTruthy : Option ℚ → Bool
  | none => false
  | some q => q != 0

/-- JavaScript string interpolation of a possibly absent string value. -/
def jsStr : Option String → String
  | none => "undefined"
  | some s => s

/-- listIncludes l v mirrors l.includes(v) where v may be absent:
an array of strings never contains undefined. -/
def listIncludes (l : List String) (v : Option String) : Bool :=
  match v with
  | none => false
  | some s => l.contains s

/-- Rendering of a number inside a message string. -/
def qStr (q : ℚ) : String := toString q

/-- join(", ") followed by the JavaScript fallback to a dash for the empty
result, as in the case-rule failure message. -/
def joinOrDash (l : List String) : String :=
  let j := String.intercalate ", " l
  if j = "" then "-" else j

/-- estimateWattage: cpu tdp plus gpu tdp plus a 100 W headroom constant,
absent (or zero, via the JavaScript or-default) tdp counting as zero. -/
def estimateWattage (parts : BaseCategory → Option Product) : ℚ :=
  ((parts BaseCategory.CPU).bind Product.tdp).getD 0
    + ((parts BaseCategory.GPU).bind Product.tdp).getD 0 + 100

/-- Socket rule: fires when CPU and Motherboard are both present. -/
def socketNote (parts : BaseCategory → Option Product) : Option Note :=
  match parts BaseCategory.CPU, parts BaseCategory.Motherboard with
  | some cpu, some mb =>
      some (if cpu.socket = mb.socket then
              { level := Level.ok, msg := "CPU ✔ เมนบอร์ด ✔ (ซ็อกเก็ตตรงกัน)" }
            else
              { level := Level.error,
                msg := "CPU socket (" ++ jsStr cpu.socket
                  ++ ") ไม่ตรงกับเมนบอร์ด (" ++ jsStr mb.socket ++ ")" })
  | _, _ => none

/-- RAM type rule: fires when RAM and Motherboard are both present. -/
def ramNote (parts : BaseCategory → Option Product) : Option Note :=
  match parts BaseCategory.RAM, parts BaseCategory.Motherboard with
  | some ram, some mb =>
      some (if ram.type = mb.ramType then
              { level := Level.ok, msg := "RAM ✔ เมนบอร์ด ✔ (ชนิดแรมตรงกัน)" }
            else
              { level := Level.error,
                msg := "RAM (" ++ jsStr ram.type
                  ++ ") ไม่ตรงกับเมนบอร์ด (" ++ jsStr mb.ramType ++ ")" })
  | _, _ => none

/-- PCIe rule: fires when GPU and Motherboard are both present. -/
def gpuNote (parts : BaseCategory → Option Product) : Option Note :=
  match parts BaseCategory.GPU, parts BaseCategory.Motherboard with
  | some _, some mb =>
      some (if numTruthy mb.pcieSlots then
              { level := Level.ok, msg := "GPU ✔ เมนบอร์ด ✔ (มีสล็อต PCIe)" }
            else
              { level := Level.error, msg := "เมนบอร์ดนี้ไม่มีสล็อต PCIe สำหรับการ์ดจอ" })
  | _, _ => none

/-- Case form-factor rule: fires when Case and Motherboard are both present. -/
def caseNote (parts : BaseCategory → Option Product) : Option Note :=
  match parts BaseCategory.Case, parts BaseCategory.Motherboard with
  | some pcCase, some mb =>
      some (if listIncludes (pcCase.formFactorSupport.getD []) mb.formFactor then
              { level := Level.ok, msg := "เคส ✔ เมนบอร์ด ✔ (ขนาดตรงกัน)" }
            else
              { level := Level.error,
                msg := "เคสรองรับ " ++ joinOrDash (pcCase.formFactorSupport.getD [])
                  ++ " ไม่ตรงกับเมนบอร์ด (" ++ jsStr mb.formFactor ++ ")" })
  | _, _ => none

/-- Cooler socket rule: fires when Cooler and CPU are both present. -/
def coolerNote (parts : BaseCategory → Option Product) : Option Note :=
  match parts BaseCategory.Cooler, parts BaseCategory.CPU with
  | some cooler, some cpu =>
      some (if listIncludes (cooler.socketSupport.getD []) cpu.socket then
              { level := Level.ok, msg := "คูลเลอร์ ✔ CPU ✔ (รองรับซ็อกเก็ต)" }
            else
              { level := Level.error,
                msg := "ชุดระบายความร้อนไม่รองรับซ็อกเก็ต CPU (" ++ jsStr cpu.socket ++ ")" })
  | _, _ => none

/-- Storage interface rule: fires when Storage and Motherboard are both
present, the storage interface is truthy and the motherboard storage list
is present (any array is truthy). -/
def storageNote (parts : BaseCategory → Option Product) : Option Note :=
  match parts BaseCategory.Storage, parts BaseCategory.Motherboard with
  | some st, some mb =>
      if strTruthy st.interface && mb.storage.isSome then
        some (if listIncludes (mb.storage.getD []) st.interface then
                { level := Level.ok, msg := "สตอเรจ ✔ เมนบอร์ด ✔ (อินเทอร์เฟซตรงกัน)" }
              else
                { level := Level.error,
                  msg := "สตอเรจ (" ++ jsStr st.interface
                    ++ ") ไม่ตรงกับพอร์ตบนเมนบอร์ด ("
                    ++ String.intercalate ", " (mb.storage.getD []) ++ ")" })
      else none
  | _, _ => none

/-- PSU rule: fires whenever a PSU is present; compares its wattage
(defaulting to zero) with the estimated need. -/
def psuNote (parts : BaseCategory → Option Product) : Option Note :=
  match parts BaseCategory.PSU with
  | some psu =>
      let need := estimateWattage parts
      let has := psu.wattage.getD 0
      some (if has < need then
              { level := Level.warn,
                msg := "กำลังไฟ PSU " ++ qStr has ++ "W อาจไม่พอ ต้องการอย่างน้อย ~"
                  ++ qStr need ++ "W" }
            else
              { level := Level.ok, msg := "PSU เพียงพอ (ต้องการ ~" ++ qStr need ++ "W)" })
  | none => none

/-- checkCompatibility: the rules push their notes in source order; the
overall level is error if any note errs, else warn if any warns, else ok. -/
def checkCompatibility (parts : BaseCategory → Option Product) : Report :=
  let notes :=
    (socketNote parts).toList ++ (ramNote parts).toList ++ (gpuNote parts).toList
      ++ (caseNote parts).toList ++ (coolerNote parts).toList
      ++ (storageNote parts).toList ++ (psuNote parts).toList
  { level :=
      if notes.any (fun n => n.level = Level.error) then Level.error
      else if notes.any (fun n => n.level = Level.warn) then Level.warn
      else Level.ok,
    notes := notes }

/-- The predicate the filter applier tests on each candidate: the chain of
early returns of the filter callback, in source order. A constraint field
is consulted only when truthy (minPSUWatt: only when it is a number), and
attribute reads fall back exactly as the source does. -/
def attrPass (cat : BaseCategory) (f : AttrFilters) (p : Product) : Bool :=
  if strTruthy f.socket
      && ((cat = BaseCategory.CPU && p.socket != f.socket)
          || (cat = BaseCategory.Motherboard && p.socket != f.socket)) then false
  else if strTruthy f.ramType && cat = BaseCategory.Motherboard
      && p.ramType != f.ramType then false
  else if strTruthy f.formFactor && cat = BaseCategory.Motherboard
      && p.formFactor != f.formFactor then false
  else if strTruthy f.formFactor && cat = BaseCategory.Case
      && !listIncludes (p.formFactorSupport.getD []) f.formFactor then false
  else if strTruthy f.storageInterface && cat = BaseCategory.Storage
      && p.interface != f.storageInterface then false
  else if strTruthy f.storageInterface && cat = BaseCategory.Motherboard
      && !listIncludes (p.storage.getD []) f.storageInterface then false
  else if f.minPSUWatt.isSome && cat = BaseCategory.PSU
      && decide (p.wattage.getD 0 < f.minPSUWatt.getD 0) then false
  else if strTruthy f.coolerSocket && cat = BaseCategory.Cooler
      && !listIncludes (p.socketSupport.getD []) f.coolerSocket then false
  else true

/-- applyAttrFilters: keep the candidates passing every relevant
constraint (with the source's early return of an empty input list). -/
def applyAttrFilters (cat : BaseCategory) (items : List Product) (f : AttrFilters) :
    List Product :=
  if items.isEmpty then items else items.filter (attrPass cat f)

/-- deriveFiltersFromSelection (Smart Sync): start from the previous
filters and conditionally overwrite fields from the chosen parts, in the
source order of the assignments. -/
def deriveFiltersFromSelection (base : BaseCategory → Option Product)
    (current : AttrFilters) : AttrFilters :=
  let cpuSock := (base BaseCategory.CPU).bind Product.socket
  let mbSock := (base BaseCategory.Motherboard).bind Product.socket
  let mbRam := (base BaseCategory.Motherboard).bind Product.ramType
  let mbFF := (base BaseCategory.Motherboard).bind Product.formFactor
  let stIf := (base BaseCategory.Storage).bind Product.interface
  let mbStore := ((base BaseCategory.Motherboard).bind Product.storage).getD []
  let next := current
  let next := if strTruthy cpuSock then { next with socket := cpuSock } else next
  let next := if !strTruthy cpuSock && strTruthy mbSock then
                { next with socket := mbSock } else next
  let next := if strTruthy mbRam then { next with ramType := mbRam } else next
  let next := if strTruthy mbFF then { next with formFactor := mbFF } else next
  let next := if strTruthy stIf then { next with storageInterface := stIf } else next
  let next := if !strTruthy stIf && !mbStore.isEmpty then
                { next with storageInterface := mbStore.head? } else next
  let next := if strTruthy cpuSock then { next with coolerSocket := cpuSock } else next
  let next := if (base BaseCategory.PSU).isSome then
                { next with minPSUWatt := some (max (estimateWattage base) 0) } else next
  next

/-- The discount modes of the pricing configuration. -/
inductive DiscountType
  | noDiscount | percent | fixed
deriving DecidableEq

/-- The pricing configuration (showCost is the includeCost switch). -/
structure Pricing where
  discountType : DiscountType
  discountValue : ℚ
  vatEnabled : Bool
  vatPercent : ℚ
  showCost : Bool
deriving DecidableEq

/-- The fixed order of the base categories, as in the source constant. -/
def BASE_CATEGORIES : List BaseCategory :=
  [BaseCategory.CPU, BaseCategory.Motherboard, BaseCategory.GPU, BaseCategory.RAM,
   BaseCategory.Storage, BaseCategory.PSU, BaseCategory.Case, BaseCategory.Cooler]

/-- The chosen base parts in category order (map then filter(Boolean)). -/
def baseSelected (base : BaseCategory → Option Product) : List Product :=
  BASE_CATEGORIES.filterMap base

/-- Sum of the chosen base part prices (a left fold, as reduce). -/
def baseTotal (build : BuildState) : ℚ :=
  (baseSelected build.base).foldl (fun s p => s + p.price) 0

/-- Sum over the add-on lines of price times quantity. -/
def addonTotal (build : BuildState) : ℚ :=
  build.addons.foldl (fun s a => s + a.product.price * a.qty) 0

/-- The quote subtotal. -/
def subtotal (build : BuildState) : ℚ := baseTotal build + addonTotal build

/-- The required categories with no chosen part. -/
def missingRequired (required : List BaseCategory) (build : BuildState) :
    List BaseCategory :=
  required.filter (fun c => (build.base c).isNone)

/-- The discount amount. The or-default on discountValue in the source is
the identity on numbers (zero falls back to zero). -/
def discount (pr : Pricing) (build : BuildState) : ℚ :=
  match pr.discountType with
  | DiscountType.percent => min (subtotal build) (subtotal build * pr.discountValue / 100)
  | DiscountType.fixed => min (subtotal build) pr.discountValue
  | DiscountType.noDiscount => 0

/-- Net amount before VAT, floored at zero. -/
def netBeforeVAT (pr : Pricing) (build : BuildState) : ℚ :=
  max 0 (subtotal build - discount pr build)

/-- The VAT amount (zero when VAT is disabled). -/
def vatAmount (pr : Pricing) (build : BuildState) : ℚ :=
  if pr.vatEnabled then netBeforeVAT pr build * pr.vatPercent / 100 else 0

/-- The quote total. -/
def quoteTotal (pr : Pricing) (build : BuildState) : ℚ :=
  netBeforeVAT pr build + vatAmount pr build

/-- Sum of the chosen base part costs, a non-number (absent) cost counting
as zero. -/
def baseCost (build : BuildState) : ℚ :=
  (baseSelected build.base).foldl (fun s p => s + p.cost.getD 0) 0

/-- Sum over the add-on lines of cost times quantity when the cost is a
number, zero otherwise. -/
def addonCost (build : BuildState) : ℚ :=
  build.addons.foldl
    (fun s a => s + match a.product.cost with
      | some c => c * a.qty
      | none => 0) 0

/-- Total acquisition cost of the build. -/
def costTotal (build : BuildState) : ℚ := baseCost build + addonCost build

/-- Profit: net before VAT minus total cost (VAT excluded). -/
def profit (pr : Pricing) (build : BuildState) : ℚ :=
  netBeforeVAT pr build - costTotal build

/-- Margin percent, zero when the net before VAT is not positive. -/
def marginPercent (pr : Pricing) (build : BuildState) : ℚ :=
  if 0 < netBeforeVAT pr build then profit pr build / netBeforeVAT pr build * 100 else 0

/-- addAddon: if an entry for the product id exists, add the quantity to
it, otherwise append a fresh entry. The random uid of the source is passed
in as the newId parameter. -/
def addAddon (build : BuildState) (newId : String) (product : Product) (qty : ℚ) :
    BuildState :=
  if build.addons.any (fun a => a.product.id = product.id) then
    let bumped := build.addons.map
      (fun a => if a.product.id = product.id then { a with qty := a.qty + qty } else a)
    { build with addons := bumped }
  else
    { build with addons := build.addons ++ [{ id := newId, product := product, qty := qty }] }

/-- updateAddonQty: overwrite the quantity of the entry with the given
entry id, leaving everything else untouched. -/
def updateAddonQty (build : BuildState) (entryId : String) (qty : ℚ) : BuildState :=
  let touched := build.addons.map
    (fun a => if a.id = entryId then { a with qty := qty } else a)
  { build with addons := touched }

/-- removeAddon: drop the entry with the given entry id. -/
def removeAddon (build : BuildState) (entryId : String) : BuildState :=
  { build with addons := build.addons.filter (fun a => a.id != entryId) }

/-- The add of the quick-search palette (Ctrl+K dialog) in App: a base
category product replaces the slot of its category; any other product is
appended to the add-on list as a fresh entry of quantity one, with no
aggregation. The random uid is passed in as newId. -/
def quickSearchAdd (build : BuildState) (newId : String) (p : Product) : BuildState :=
  match p.category with
  | Category.base c =>
      { build with base := fun c2 => if c2 = c then some p else build.base c2 }
  | Category.addon _ =>
      { build with addons := build.addons ++ [{ id := newId, product := p, qty := 1 }] }

/-- The add-on aggregation invariant: at most one entry per product id. -/
def AddonsUnique (build : BuildState) : Prop :=
  (build.addons.map (fun a => a.product.id)).Nodup

instance (build : BuildState) : Decidable (AddonsUnique build) := by
  unfold AddonsUnique; infer_instance

/-- The empty filter set. -/
def emptyFilters : AttrFilters := {}

/-- The empty base selection. -/
def emptyBase : BaseCategory → Option Product := fun _ => none

/-! ### Helper lemmas and concrete inputs -/

/-- A left fold accumulating g over a list is the initial value plus the
sum of the mapped list. -/
theorem foldl_add_map {α : Type} (g : α → ℚ) (l : List α) (init : ℚ) :
    l.foldl (fun s a => s + g a) init = init + (l.map g).sum := by
  induction l generalizing init with
  | nil => simp
  | cons x xs ih =>
      simp only [List.foldl_cons, List.map_cons, List.sum_cons, ih]
      ring

/-- The CPU of the worked pricing example: a single base part of price 10000. -/
def exC1Cpu : Product := { id := "cpu10000", category := Category.base BaseCategory.CPU, price := 10000 }

/-- The build of the worked pricing example. -/
def exC1Build : BuildState :=
  { base := fun c => match c with
      | BaseCategory.CPU => some exC1Cpu
      | _ => none,
    addons := [] }

/-- The pricing of the worked example: 10 percent discount, VAT 7. -/
def exC1Pricing : Pricing :=
  { discountType := DiscountType.percent, discountValue := 10,
    vatEnabled := true, vatPercent := 7, showCost := true }

/-- The subtotal of the worked example. -/
theorem exC1_subtotal : subtotal exC1Build = 10000 := by
  simp [subtotal, baseTotal, addonTotal, baseSelected, BASE_CATEGORIES,
    exC1Build, exC1Cpu, List.filterMap_cons, List.filterMap_nil]

/-- The discount of the worked example. -/
theorem exC1_discount : discount exC1Pricing exC1Build = 1000 := by
  simp only [discount, exC1Pricing, exC1_subtotal]
  norm_num

/-- The net before VAT of the worked example. -/
theorem exC1_net : netBeforeVAT exC1Pricing exC1Build = 9000 := by
  simp only [netBeforeVAT, exC1_subtotal, exC1_discount]
  norm_num

/-- The VAT amount of the worked example. -/
theorem exC1_vat : vatAmount exC1Pricing exC1Build = 630 := by
  simp only [vatAmount]
  rw [exC1_net]
  simp only [exC1Pricing]
  norm_num

/-- The grand total of the worked example. -/
theorem exC1_total : quoteTotal exC1Pricing exC1Build = 9630 := by
  simp only [quoteTotal, exC1_net, exC1_vat]
  norm_num

/-- C1: quote arithmetic. The subtotal is the sum of chosen base part
prices plus price times quantity over the add-ons; the discount is zero,
the capped percentage or the capped fixed amount according to the mode and
never exceeds the subtotal; the net before tax is the subtotal minus the
discount floored at zero; the tax is the net times the VAT percentage when
VAT is enabled and zero otherwise; the total is net plus tax; and the
worked example with subtotal 10000, percent discount 10 and VAT 7 yields
discount 1000, net 9000, tax 630 and total 9630. -/
theorem quote_arithmetic_C1 (build : BuildState) (pr : Pricing)
    (hsub : 0 ≤ subtotal build) :
    subtotal build
        = ((baseSelected build.base).map Product.price).sum
          + (build.addons.map (fun a => a.product.price * a.qty)).sum
  ∧ discount pr build
        = (match pr.discountType with
           | DiscountType.noDiscount => 0
           | DiscountType.percent =>
               min (subtotal build) (subtotal build * pr.discountValue / 100)
           | DiscountType.fixed => min (subtotal build) pr.discountValue)
  ∧ discount pr build ≤ subtotal build
  ∧ netBeforeVAT pr build = max 0 (subtotal build - discount pr build)
  ∧ vatAmount pr build
        = (if pr.vatEnabled then netBeforeVAT pr build * pr.vatPercent / 100 else 0)
  ∧ quoteTotal pr build = netBeforeVAT pr build + vatAmount pr build
  ∧ (subtotal exC1Build = 10000 ∧ discount exC1Pricing exC1Build = 1000
      ∧ netBeforeVAT exC1Pricing exC1Build = 9000
      ∧ vatAmount exC1Pricing exC1Build = 630
      ∧ quoteTotal exC1Pricing exC1Build = 9630) := by
  refine ⟨?_, ?_, ?_, rfl, rfl, rfl,
    exC1_subtotal, exC1_discount, exC1_net, exC1_vat, exC1_total⟩
  · simp [subtotal, baseTotal, addonTotal, foldl_add_map]
  · obtain ⟨dt, dv, ve, vp, sc⟩ := pr
    cases dt <;> rfl
  · cases h : pr.discountType with
    | noDiscount => simpa [discount, h] using hsub
    | percent => simp [discount, h]
    | fixed => simp [discount, h]

/-- Witness for C1 at the worked example. -/
theorem quote_arithmetic_C1_witness :
    0 ≤ subtotal exC1Build
  ∧ (subtotal exC1Build = 10000 ∧ discount exC1Pricing exC1Build = 1000
      ∧ netBeforeVAT exC1Pricing exC1Build = 9000
      ∧ vatAmount exC1Pricing exC1Build = 630
      ∧ quoteTotal exC1Pricing exC1Build = 9630) :=
  ⟨by rw [exC1_subtotal]; norm_num,
   (quote_arithmetic_C1 exC1Build exC1Pricing
      (by rw [exC1_subtotal]; norm_num)).2.2.2.2.2.2⟩

/-- An AM5 CPU used to witness the socket rule. -/
def c2cpu : Product :=
  { id := "cpuA", category := Category.base BaseCategory.CPU, socket := some "AM5" }

/-- An LGA1700 motherboard used to witness the socket rule. -/
def c2mb : Product :=
  { id := "mbB", category := Category.base BaseCategory.Motherboard, socket := some "LGA1700" }

/-- A base selection holding the mismatched CPU and motherboard. -/
def c2base : BaseCategory → Option Product := fun c =>
  match c with
  | BaseCategory.CPU => some c2cpu
  | BaseCategory.Motherboard => some c2mb
  | _ => none

/-- C2: with CPU and motherboard both present, equal socket attributes
give an ok-level socket note (no error-level note from the socket rule),
and different socket attributes give exactly one error-level socket note,
in the report, whose message names both socket values. -/
theorem socket_rule_C2 (b : BaseCategory → Option Product) (cpu mb : Product)
    (hc : b BaseCategory.CPU = some cpu) (hm : b BaseCategory.Motherboard = some mb) :
    (cpu.socket = mb.socket →
      ∃ n, socketNote b = some n ∧ n.level = Level.ok ∧ n ∈ (checkCompatibility b).notes)
  ∧ (cpu.socket ≠ mb.socket →
      ∃ msg, socketNote b = some { level := Level.error, msg := msg }
        ∧ Note.mk Level.error msg ∈ (checkCompatibility b).notes
        ∧ ∃ u v w, msg = u ++ jsStr cpu.socket ++ v ++ jsStr mb.socket ++ w) := by
  constructor
  · intro h
    refine ⟨{ level := Level.ok, msg := "CPU ✔ เมนบอร์ด ✔ (ซ็อกเก็ตตรงกัน)" }, ?_, rfl, ?_⟩
    · simp [socketNote, hc, hm, h]
    · simp [checkCompatibility, socketNote, hc, hm, h]
  · intro h
    refine ⟨"CPU socket (" ++ jsStr cpu.socket ++ ") ไม่ตรงกับเมนบอร์ด ("
        ++ jsStr mb.socket ++ ")", ?_, ?_,
      "CPU socket (", ") ไม่ตรงกับเมนบอร์ด (", ")", rfl⟩
    · simp [socketNote, hc, hm, h]
    · simp [checkCompatibility, socketNote, hc, hm, h]

/-- Witness for C2 at the concrete mismatched pair. -/
theorem socket_rule_C2_witness :
    c2cpu.socket ≠ c2mb.socket
  ∧ (∃ msg, socketNote c2base = some { level := Level.error, msg := msg }
      ∧ Note.mk Level.error msg ∈ (checkCompatibility c2base).notes
      ∧ ∃ u v w, msg = u ++ jsStr c2cpu.socket ++ v ++ jsStr c2mb.socket ++ w) :=
  ⟨by decide, (socket_rule_C2 c2base c2cpu c2mb rfl rfl).2 (by decide)⟩

/-- A 300 W power supply. -/
def c4psu : Product :=
  { id := "psu300", category := Category.base BaseCategory.PSU, wattage := some 300 }

/-- A selection holding only the power supply: no CPU, no GPU. -/
def c4base : BaseCategory → Option Product := fun c =>
  match c with
  | BaseCategory.PSU => some c4psu
  | _ => none

/-- C4 counterexample: a selection with a PSU but neither CPU nor GPU
still gets a note from the PSU sufficiency rule (the source guards that
rule on the PSU alone), so the report is not free of PSU-rule notes. -/
theorem checker_rules_C4_counterexample :
    c4base BaseCategory.CPU = none ∧ c4base BaseCategory.GPU = none
  ∧ (c4base BaseCategory.PSU).isSome = true
  ∧ (psuNote c4base).isSome = true
  ∧ (checkCompatibility c4base).notes.length = 1 := by
  refine ⟨rfl, rfl, rfl, rfl, rfl⟩

/-- C4 as amended: each of the six pairwise rules produces a note only
when both parts of its pair are present, but the PSU sufficiency rule
fires whenever a PSU is present, so a selection with a PSU and no CPU or
GPU does get a PSU-rule note. -/
theorem checker_rules_C4_amended (b : BaseCategory → Option Product) :
    ((socketNote b).isSome → (b BaseCategory.CPU).isSome ∧ (b BaseCategory.Motherboard).isSome)
  ∧ ((ramNote b).isSome → (b BaseCategory.RAM).isSome ∧ (b BaseCategory.Motherboard).isSome)
  ∧ ((gpuNote b).isSome → (b BaseCategory.GPU).isSome ∧ (b BaseCategory.Motherboard).isSome)
  ∧ ((caseNote b).isSome → (b BaseCategory.Case).isSome ∧ (b BaseCategory.Motherboard).isSome)
  ∧ ((coolerNote b).isSome → (b BaseCategory.Cooler).isSome ∧ (b BaseCategory.CPU).isSome)
  ∧ ((storageNote b).isSome → (b BaseCategory.Storage).isSome ∧ (b BaseCategory.Motherboard).isSome)
  ∧ ((b BaseCategory.PSU).isSome → (psuNote b).isSome)
  ∧ ((b BaseCategory.PSU) = none → psuNote b = none) := by
  refine ⟨?_, ?_, ?_, ?_, ?_, ?_, ?_, ?_⟩
  · cases h1 : b BaseCategory.CPU <;> cases h2 : b BaseCategory.Motherboard <;>
      simp [socketNote, h1, h2]
  · cases h1 : b BaseCategory.RAM <;> cases h2 : b BaseCategory.Motherboard <;>
      simp [ramNote, h1, h2]
  · cases h1 : b BaseCategory.GPU <;> cases h2 : b BaseCategory.Motherboard <;>
      simp [gpuNote, h1, h2]
  · cases h1 : b BaseCategory.Case <;> cases h2 : b BaseCategory.Motherboard <;>
      simp [caseNote, h1, h2]
  · cases h1 : b BaseCategory.Cooler <;> cases h2 : b BaseCategory.CPU <;>
      simp [coolerNote, h1, h2]
  · cases h1 : b BaseCategory.Storage <;> cases h2 : b BaseCategory.Motherboard <;>
      simp [storageNote, h1, h2]
  · cases h : b BaseCategory.PSU <;> simp [psuNote, h]
  · intro h
    simp [psuNote, h]

/-- Witness for C4 as amended: the PSU-only selection fires the PSU rule. -/
theorem checker_rules_C4_witness :
    (c4base BaseCategory.PSU).isSome = true ∧ (psuNote c4base).isSome = true :=
  ⟨rfl, (checker_rules_C4_amended c4base).2.2.2.2.2.2.1 rfl⟩

/-- A truthy optional string is a some. -/
theorem strTruthy_some {o : Option String} (h : strTruthy o = true) : ∃ s, o = some s := by
  cases o with
  | none => simp [strTruthy] at h
  | some s => exact ⟨s, rfl⟩

/-- A DDR4 RAM stick. -/
def c3ram : Product :=
  { id := "ram4", category := Category.base BaseCategory.RAM, type := some "DDR4" }

/-- A filter set demanding DDR5 RAM type. -/
def c3filters : AttrFilters := { ramType := some "DDR5" }

/-- C3 counterexample: the filter applier has no rule for the RAM
category, so a RAM candidate whose type is DDR4 is still included when
the filter set carries ramType DDR5. -/
theorem ram_filter_C3_counterexample :
    c3ram.type ≠ some "DDR5" ∧ c3filters.ramType = some "DDR5"
  ∧ applyAttrFilters BaseCategory.RAM [c3ram] c3filters = [c3ram] := by
  refine ⟨by decide, rfl, rfl⟩

/-- C3 as amended: applying the filter applier to the RAM category
returns the candidate list unchanged for every filter set; the ramType
constraint restricts only the Motherboard category. -/
theorem ram_filter_C3_amended (items : List Product) (f : AttrFilters) :
    applyAttrFilters BaseCategory.RAM items f = items := by
  unfold applyAttrFilters
  by_cases h : items.isEmpty
  · simp [h]
  · simp only [h, Bool.false_eq_true, if_false]
    apply List.filter_eq_self.mpr
    intro p _
    simp [attrPass]

/-- A PSU candidate with no wattage attribute. -/
def c7psu : Product := { id := "psuX", category := Category.base BaseCategory.PSU }

/-- A filter set with a minimum PSU wattage of zero. -/
def c7filters : AttrFilters := { minPSUWatt := some 0 }

/-- C7 counterexample: with minPSUWatt set to zero, a PSU candidate with
no wattage attribute is included, not excluded — the source treats the
missing wattage as zero rather than failing the constraint. -/
theorem attr_filter_C7_counterexample :
    c7psu.wattage = none ∧ c7filters.minPSUWatt = some 0
  ∧ applyAttrFilters BaseCategory.PSU [c7psu] c7filters = [c7psu] := by
  refine ⟨rfl, rfl, rfl⟩

/-- C7 as amended: a set minPSUWatt filters PSUs by their wattage with a
missing wattage read as zero (so such a candidate is excluded exactly when
the bound is positive); every other relevant constraint excludes a
candidate lacking its attribute; a constraint absent from the filter set
imposes no restriction. -/
theorem attr_filter_C7_amended (f : AttrFilters) (m : ℚ) (items : List Product)
    (p : Product) :
    (f.minPSUWatt = some m →
        applyAttrFilters BaseCategory.PSU items f
          = items.filter (fun q => !decide (q.wattage.getD 0 < m)))
  ∧ (f.minPSUWatt = none → applyAttrFilters BaseCategory.PSU items f = items)
  ∧ (f.minPSUWatt = some m → p.wattage = none →
        (attrPass BaseCategory.PSU f p = true ↔ m ≤ 0))
  ∧ (strTruthy f.socket = true → p.socket = none →
        attrPass BaseCategory.CPU f p = false ∧ attrPass BaseCategory.Motherboard f p = false)
  ∧ (strTruthy f.ramType = true → p.ramType = none →
        attrPass BaseCategory.Motherboard f p = false)
  ∧ (strTruthy f.formFactor = true → p.formFactor = none →
        attrPass BaseCategory.Motherboard f p = false)
  ∧ (strTruthy f.formFactor = true → p.formFactorSupport = none →
        attrPass BaseCategory.Case f p = false)
  ∧ (strTruthy f.storageInterface = true → p.interface = none →
        attrPass BaseCategory.Storage f p = false)
  ∧ (strTruthy f.storageInterface = true → p.storage = none →
        attrPass BaseCategory.Motherboard f p = false)
  ∧ (strTruthy f.coolerSocket = true → p.socketSupport = none →
        attrPass BaseCategory.Cooler f p = false)
  ∧ (∀ cat, attrPass cat emptyFilters p = true) := by
  refine ⟨?_, ?_, ?_, ?_, ?_, ?_, ?_, ?_, ?_, ?_, ?_⟩
  · intro h
    unfold applyAttrFilters
    cases items with
    | nil => simp
    | cons a t =>
        simp only [List.isEmpty_cons, Bool.false_eq_true, if_false]
        apply List.filter_congr
        intro q _
        by_cases hq : q.wattage.getD 0 < m <;> simp [attrPass, h, hq]
  · intro h
    unfold applyAttrFilters
    by_cases he : items.isEmpty
    · simp [he]
    · simp only [he, Bool.false_eq_true, if_false]
      apply List.filter_eq_self.mpr
      intro q _
      simp [attrPass, h]
  · intro h hw
    simp [attrPass, h, hw, not_lt]
  · intro h1 h2
    obtain ⟨s, hs⟩ := strTruthy_some h1
    rw [hs] at h1
    constructor <;> simp [attrPass, hs, h1, h2]
  · intro h1 h2
    obtain ⟨s, hs⟩ := strTruthy_some h1
    rw [hs] at h1
    simp [attrPass, hs, h1, h2]
  · intro h1 h2
    obtain ⟨s, hs⟩ := strTruthy_some h1
    rw [hs] at h1
    simp [attrPass, hs, h1, h2]
  · intro h1 h2
    obtain ⟨s, hs⟩ := strTruthy_some h1
    rw [hs] at h1
    simp [attrPass, hs, h1, h2, listIncludes]
  · intro h1 h2
    obtain ⟨s, hs⟩ := strTruthy_some h1
    rw [hs] at h1
    simp [attrPass, hs, h1, h2]
  · intro h1 h2
    obtain ⟨s, hs⟩ := strTruthy_some h1
    rw [hs] at h1
    simp [attrPass, hs, h1, h2, listIncludes]
  · intro h1 h2
    obtain ⟨s, hs⟩ := strTruthy_some h1
    rw [hs] at h1
    simp [attrPass, hs, h1, h2, listIncludes]
  · intro cat
    cases cat <;> simp [attrPass, emptyFilters, strTruthy]

/-- Witness for C7 as amended, at the wattage-less PSU and the zero bound. -/
theorem attr_filter_C7_witness :
    c7filters.minPSUWatt = some 0 ∧ c7psu.wattage = none
  ∧ (attrPass BaseCategory.PSU c7filters c7psu = true ↔ (0:ℚ) ≤ 0) :=
  ⟨rfl, rfl, (attr_filter_C7_amended c7filters 0 [] c7psu).2.2.1 rfl rfl⟩

/-- A truthy optional string is a some (Bool form). -/
theorem strTruthy_isSome {o : Option String} (h : strTruthy o = true) : o.isSome = true := by
  cases o with
  | none => simp [strTruthy] at h
  | some s => rfl

/-- The head of a non-empty list is a some. -/
theorem head?_isSome_of_not_isEmpty {α : Type} {l : List α} (h : l.isEmpty = false) :
    l.head?.isSome = true := by
  cases l with
  | nil => simp at h
  | cons a t => rfl

/-- The socket field of the derived filters: the CPU socket when truthy,
else the motherboard socket when truthy, else the previous value. -/
theorem derive_socket (base : BaseCategory → Option Product) (f : AttrFilters) :
    (deriveFiltersFromSelection base f).socket =
      (if strTruthy ((base BaseCategory.CPU).bind Product.socket) then
        (base BaseCategory.CPU).bind Product.socket
       else if strTruthy ((base BaseCategory.Motherboard).bind Product.socket) then
        (base BaseCategory.Motherboard).bind Product.socket
       else f.socket) := by
  simp only [deriveFiltersFromSelection]
  by_cases h1 : strTruthy ((base BaseCategory.CPU).bind Product.socket) <;>
    by_cases h2 : strTruthy ((base BaseCategory.Motherboard).bind Product.socket) <;>
      simp [h1, h2, apply_ite AttrFilters.socket]

/-- The ramType field of the derived filters. -/
theorem derive_ramType (base : BaseCategory → Option Product) (f : AttrFilters) :
    (deriveFiltersFromSelection base f).ramType =
      (if strTruthy ((base BaseCategory.Motherboard).bind Product.ramType) then
        (base BaseCategory.Motherboard).bind Product.ramType
       else f.ramType) := by
  simp only [deriveFiltersFromSelection]
  by_cases h : strTruthy ((base BaseCategory.Motherboard).bind Product.ramType) <;>
    simp [h, apply_ite AttrFilters.ramType]

/-- The formFactor field of the derived filters. -/
theorem derive_formFactor (base : BaseCategory → Option Product) (f : AttrFilters) :
    (deriveFiltersFromSelection base f).formFactor =
      (if strTruthy ((base BaseCategory.Motherboard).bind Product.formFactor) then
        (base BaseCategory.Motherboard).bind Product.formFactor
       else f.formFactor) := by
  simp only [deriveFiltersFromSelection]
  by_cases h : strTruthy ((base BaseCategory.Motherboard).bind Product.formFactor) <;>
    simp [h, apply_ite AttrFilters.formFactor]

/-- The storageInterface field of the derived filters: the storage part
interface when truthy, else the first motherboard storage port when the
list is non-empty, else the previous value. -/
theorem derive_storageInterface (base : BaseCategory → Option Product) (f : AttrFilters) :
    (deriveFiltersFromSelection base f).storageInterface =
      (if strTruthy ((base BaseCategory.Storage).bind Product.interface) then
        (base BaseCategory.Storage).bind Product.interface
       else if !(((base BaseCategory.Motherboard).bind Product.storage).getD []).isEmpty then
        (((base BaseCategory.Motherboard).bind Product.storage).getD []).head?
       else f.storageInterface) := by
  simp only [deriveFiltersFromSelection]
  by_cases h1 : strTruthy ((base BaseCategory.Storage).bind Product.interface) <;>
    by_cases h2 : (((base BaseCategory.Motherboard).bind Product.storage).getD []).isEmpty <;>
      simp [h1, h2, apply_ite AttrFilters.storageInterface]

/-- The coolerSocket field of the derived filters. -/
theorem derive_coolerSocket (base : BaseCategory → Option Product) (f : AttrFilters) :
    (deriveFiltersFromSelection base f).coolerSocket =
      (if strTruthy ((base BaseCategory.CPU).bind Product.socket) then
        (base BaseCategory.CPU).bind Product.socket
       else f.coolerSocket) := by
  simp only [deriveFiltersFromSelection]
  by_cases h : strTruthy ((base BaseCategory.CPU).bind Product.socket) <;>
    simp [h, apply_ite AttrFilters.coolerSocket]

/-- The minPSUWatt field of the derived filters. -/
theorem derive_minPSUWatt (base : BaseCategory → Option Product) (f : AttrFilters) :
    (deriveFiltersFromSelection base f).minPSUWatt =
      (if (base BaseCategory.PSU).isSome then some (max (estimateWattage base) 0)
       else f.minPSUWatt) := by
  simp only [deriveFiltersFromSelection]
  by_cases h : (base BaseCategory.PSU).isSome <;>
    simp [h, apply_ite AttrFilters.minPSUWatt]

/-- C5: merge semantics of the filter deriver. A field no derivation rule
sets for the given selection keeps its previous value; the empty
selection returns the previous filter set unchanged; a previously set
field is never cleared by derivation. -/
theorem deriver_merge_C5 (base : BaseCategory → Option Product) (f : AttrFilters) :
    deriveFiltersFromSelection emptyBase f = f
  ∧ (strTruthy ((base BaseCategory.CPU).bind Product.socket) = false →
      strTruthy ((base BaseCategory.Motherboard).bind Product.socket) = false →
      (deriveFiltersFromSelection base f).socket = f.socket)
  ∧ (strTruthy ((base BaseCategory.Motherboard).bind Product.ramType) = false →
      (deriveFiltersFromSelection base f).ramType = f.ramType)
  ∧ (strTruthy ((base BaseCategory.Motherboard).bind Product.formFactor) = false →
      (deriveFiltersFromSelection base f).formFactor = f.formFactor)
  ∧ (strTruthy ((base BaseCategory.Storage).bind Product.interface) = false →
      (((base BaseCategory.Motherboard).bind Product.storage).getD []).isEmpty = true →
      (deriveFiltersFromSelection base f).storageInterface = f.storageInterface)
  ∧ (strTruthy ((base BaseCategory.CPU).bind Product.socket) = false →
      (deriveFiltersFromSelection base f).coolerSocket = f.coolerSocket)
  ∧ (base BaseCategory.PSU = none →
      (deriveFiltersFromSelection base f).minPSUWatt = f.minPSUWatt)
  ∧ (f.socket.isSome = true → ((deriveFiltersFromSelection base f).socket).isSome = true)
  ∧ (f.ramType.isSome = true → ((deriveFiltersFromSelection base f).ramType).isSome = true)
  ∧ (f.formFactor.isSome = true →
      ((deriveFiltersFromSelection base f).formFactor).isSome = true)
  ∧ (f.storageInterface.isSome = true →
      ((deriveFiltersFromSelection base f).storageInterface).isSome = true)
  ∧ (f.minPSUWatt.isSome = true →
      ((deriveFiltersFromSelection base f).minPSUWatt).isSome = true)
  ∧ (f.coolerSocket.isSome = true →
      ((deriveFiltersFromSelection base f).coolerSocket).isSome = true) := by
  refine ⟨?_, ?_, ?_, ?_, ?_, ?_, ?_, ?_, ?_, ?_, ?_, ?_, ?_⟩
  · apply AttrFilters.ext <;>
      simp [derive_socket, derive_ramType, derive_formFactor, derive_storageInterface,
        derive_coolerSocket, derive_minPSUWatt, emptyBase, strTruthy]
  · intro h1 h2
    rw [derive_socket]
    simp [h1, h2]
  · intro h
    rw [derive_ramType]
    simp [h]
  · intro h
    rw [derive_formFactor]
    simp [h]
  · intro h1 h2
    rw [derive_storageInterface]
    simp [h1, h2]
  · intro h
    rw [derive_coolerSocket]
    simp [h]
  · intro h
    rw [derive_minPSUWatt]
    simp [h]
  · intro h
    rw [derive_socket]
    split_ifs with h1 h2
    · exact strTruthy_isSome h1
    · exact strTruthy_isSome h2
    · exact h
  · intro h
    rw [derive_ramType]
    split_ifs with h1
    · exact strTruthy_isSome h1
    · exact h
  · intro h
    rw [derive_formFactor]
    split_ifs with h1
    · exact strTruthy_isSome h1
    · exact h
  · intro h
    rw [derive_storageInterface]
    split_ifs with h1 h2
    · exact strTruthy_isSome h1
    · exact head?_isSome_of_not_isEmpty (by simpa using h2)
    · exact h
  · intro h
    rw [derive_minPSUWatt]
    split_ifs with h1
    · rfl
    · exact h
  · intro h
    rw [derive_coolerSocket]
    split_ifs with h1
    · exact strTruthy_isSome h1
    · exact h

/-- Witness for C5: with the empty selection nothing is derived, and a
concrete previously set filter set passes through unchanged. -/
theorem deriver_merge_C5_witness :
    strTruthy ((emptyBase BaseCategory.CPU).bind Product.socket) = false
  ∧ strTruthy ((emptyBase BaseCategory.Motherboard).bind Product.socket) = false
  ∧ (deriveFiltersFromSelection emptyBase
        { socket := some "AM5", minPSUWatt := some 500 }).socket
      = ({ socket := some "AM5", minPSUWatt := some 500 } : AttrFilters).socket :=
  ⟨rfl, rfl,
    (deriver_merge_C5 emptyBase { socket := some "AM5", minPSUWatt := some 500 }).2.1
      rfl rfl⟩

/-- C6: the filter deriver is idempotent in the filter set for a fixed
selection: deriving twice equals deriving once. -/
theorem deriver_idempotent_C6 (base : BaseCategory → Option Product) (f : AttrFilters) :
    deriveFiltersFromSelection base (deriveFiltersFromSelection base f)
      = deriveFiltersFromSelection base f := by
  apply AttrFilters.ext
  · rw [derive_socket, derive_socket]
    split_ifs <;> rfl
  · rw [derive_ramType, derive_ramType]
    split_ifs <;> rfl
  · rw [derive_formFactor, derive_formFactor]
    split_ifs <;> rfl
  · rw [derive_storageInterface, derive_storageInterface]
    split_ifs <;> rfl
  · rw [derive_minPSUWatt, derive_minPSUWatt]
    split_ifs <;> rfl
  · rw [derive_coolerSocket, derive_coolerSocket]
    split_ifs <;> rfl

/-- Modelled from the spec sentence for C8: costTotal as the plain sum of
the chosen parts and add-ons cost values (missing cost as zero), read
without a quantity factor on the add-ons, for comparison with the source
computation. -/
def costTotalClaim (build : BuildState) : ℚ :=
  ((baseSelected build.base).map (fun p => p.cost.getD 0)).sum
    + (build.addons.map (fun a => a.product.cost.getD 0)).sum

/-- A monitor with cost 100 used for the cost aggregation claims. -/
def c8prod : Product :=
  { id := "mon100", category := Category.addon AddonCategory.Monitor,
    price := 150, cost := some 100 }

/-- A build holding two units of the costed monitor as one add-on line. -/
def c8build : BuildState :=
  { base := emptyBase, addons := [{ id := "a1", product := c8prod, qty := 2 }] }

/-- C8 counterexample: the source multiplies an add-on cost by its
quantity, so a single add-on line of quantity two and cost 100 yields
costTotal 200, not the plain sum 100 of the cost values. -/
theorem cost_margin_C8_counterexample :
    costTotal c8build = 200 ∧ costTotalClaim c8build = 100
  ∧ costTotal c8build ≠ costTotalClaim c8build := by
  have h1 : costTotal c8build = 200 := by
    simp [costTotal, baseCost, addonCost, baseSelected, BASE_CATEGORIES,
      c8build, c8prod, emptyBase, List.filterMap_cons, List.filterMap_nil]
    norm_num
  have h2 : costTotalClaim c8build = 100 := by
    simp [costTotalClaim, baseSelected, BASE_CATEGORIES,
      c8build, c8prod, emptyBase, List.filterMap_cons, List.filterMap_nil]
  refine ⟨h1, h2, by rw [h1, h2]; norm_num⟩

/-- C8 as amended: with includeCost on, costTotal is the sum of the
chosen base parts cost values plus, over the add-ons, cost times quantity
(missing cost as zero); profit is net before tax minus costTotal (tax
excluded); marginPercent is profit over net times 100 when the net is
positive and zero otherwise. -/
theorem cost_margin_C8_amended (build : BuildState) (pr : Pricing)
    (_hc : pr.showCost = true) :
    costTotal build
        = ((baseSelected build.base).map (fun p => p.cost.getD 0)).sum
          + (build.addons.map (fun a => a.product.cost.getD 0 * a.qty)).sum
  ∧ profit pr build = netBeforeVAT pr build - costTotal build
  ∧ marginPercent pr build
      = (if 0 < netBeforeVAT pr build
         then profit pr build / netBeforeVAT pr build * 100 else 0) := by
  refine ⟨?_, rfl, rfl⟩
  have hmap : (build.addons.map
      (fun a => match a.product.cost with
        | some c => c * a.qty
        | none => 0))
      = build.addons.map (fun a => a.product.cost.getD 0 * a.qty) := by
    apply List.map_congr_left
    intro a _
    cases a.product.cost with
    | none => simp
    | some c => rfl
  simp [costTotal, baseCost, addonCost, foldl_add_map, hmap]

/-- Witness for C8 as amended at a concrete build and pricing. -/
theorem cost_margin_C8_witness :
    exC1Pricing.showCost = true
  ∧ costTotal c8build
      = ((baseSelected c8build.base).map (fun p => p.cost.getD 0)).sum
        + (c8build.addons.map (fun a => a.product.cost.getD 0 * a.qty)).sum :=
  ⟨rfl, (cost_margin_C8_amended c8build exC1Pricing rfl).1⟩

/-- A monitor product used for the add-on aggregation claims. -/
def c9mon : Product :=
  { id := "monA", category := Category.addon AddonCategory.Monitor, price := 4490 }

/-- A build already holding one add-on line for the monitor. -/
def c9build : BuildState :=
  { base := emptyBase, addons := [{ id := "a1", product := c9mon, qty := 1 }] }

/-- C9: adding through addAddon aggregates (qty 1 then qty 2 gives one
line of qty 3) and the one-entry-per-product-id invariant holds for it,
but the quick-search palette add appends a second line for the same
product id, breaking the invariant — the code slip behind the claim. -/
theorem addon_invariant_C9 :
    (addAddon (addAddon { base := emptyBase, addons := [] } "a1" c9mon 1)
        "a2" c9mon 2).addons
      = [{ id := "a1", product := c9mon, qty := 3 }]
  ∧ AddonsUnique c9build
  ∧ ((quickSearchAdd c9build "a2" c9mon).addons.map (fun a => a.product.id))
      = ["monA", "monA"]
  ∧ ¬ AddonsUnique (quickSearchAdd c9build "a2" c9mon) := by
  refine ⟨?_, ?_, rfl, ?_⟩
  · norm_num [addAddon, c9mon]
  · simp [AddonsUnique, c9build]
  · simp [AddonsUnique, quickSearchAdd, c9build, c9mon]

/-- C10: updateAddonQty stores the given quantity as passed (no clamping,
zero and negative included) into exactly the entries whose id matches,
leaves every other add-on entry unchanged and leaves the base selection
unchanged. -/
theorem updateAddonQty_frame_C10 (build : BuildState) (entryId : String) (q : ℚ)
    (i : ℕ) :
    (updateAddonQty build entryId q).base = build.base
  ∧ (updateAddonQty build entryId q).addons.length = build.addons.length
  ∧ (updateAddonQty build entryId q).addons[i]?
      = (build.addons[i]?).map
          (fun a => if a.id = entryId then { a with qty := q } else a) := by
  refine ⟨rfl, ?_, ?_⟩
  · simp [updateAddonQty]
  · simp [updateAddonQty, List.getElem?_map]

end UbonSpec
